import Mathlib

/-!
Shallow embedding of the `project-jarvis-be` WebSocket hub.

Sources embedded:
* `src/websocket_manager.py` — `WebSocketManager`: the connection registry
  (`connect` / `disconnect` / `get_connection_count`), single-target sends
  (`send_personal_message`, `_send_response`), the broadcast pass
  (`broadcast`), and the message classifier / dispatcher
  (`handle_message`, `_handle_structured_message`, `_handle_json_data`,
  `_handle_text_message`, `_send_error_response`).
* `src/main.py` — `WebSocketServer.process_message`, the standalone server's
  message handler.

Modelling conventions:
* A connection handle (`fastapi.WebSocket`) is an opaque identifier, here `Nat`.
* The Python `set` of active connections is a duplicate-free `List Nat` with
  set semantics: `connect` inserts only when absent, `disconnect` filters out
  every occurrence (`set.discard`).
* `json.loads` is an abstract parameter `parse : String → Option JValue`;
  `none` models a raised `json.JSONDecodeError`, `some v` a parsed value.
* Whether the transport-level `send_text`/`send` succeeds for a given handle
  is an abstract oracle `sendOk : Nat → Bool`; `false` models a raised
  exception inside `await connection.send_text(...)`.
* `datetime.now(...)` output is an abstract `String` parameter.
-/

/-- A parsed JSON value, as produced by `json.loads`.  Python `dict`s are
association lists with unique keys (the parser collapses duplicates), `int`
and `float` are both carried as `num` (only their runtime type name matters
to the code, recorded separately by `typeName`). -/
inductive JValue where
  | obj  : List (String × JValue) → JValue
  | arr  : List JValue → JValue
  | str  : String → JValue
  | num  : Int → JValue
  | bool : Bool → JValue
  | null : JValue
deriving Repr

/-- `d.get(k, default)` on a Python dict: the value at the key when present,
otherwise the default. -/
def dictGet (fields : List (String × JValue)) (k : String) (d : JValue) : JValue :=
  match fields.find? (fun p => p.1 == k) with
  | some p => p.2
  | none => d

/-- `d.__contains__(k)`: whether a key is present in the dict. -/
def dictHas (fields : List (String × JValue)) (k : String) : Bool :=
  (fields.find? (fun p => p.1 == k)).isSome

/-- Python `value == "s"` where `value` came out of a JSON document: true
exactly when the value is the equal string (comparison of a non-string JSON
value with a `str` is `False` in Python). -/
def isStrEq (v : JValue) (t : String) : Bool :=
  match v with
  | .str u => u == t
  | _ => false

/-- Python `type(data).__name__` for a parsed JSON value
(`_handle_json_data`, `websocket_manager.py` line 123). -/
def typeName : JValue → String
  | .obj _ => "dict"
  | .arr _ => "list"
  | .str _ => "str"
  | .num _ => "int"
  | .bool _ => "bool"
  | .null => "NoneType"

/-- A value appearing in an outbound response dict before serialization:
a string, a length (`int`), or an embedded JSON value. -/
inductive RVal where
  | s : String → RVal
  | n : Nat → RVal
  | j : JValue → RVal
deriving Repr

/-- An outbound response object: the dict literal the Python code passes to
`json.dumps`, with its key order. -/
def Response : Type := List (String × RVal)

/-- Lookup of a key in a response object. -/
def rlookup (r : Response) (k : String) : Option RVal :=
  (r.find? (fun p => p.1 == k)).map (fun p => p.2)

/-! ## Connection registry (`WebSocketManager.active_connections`) -/

/-- `WebSocketManager.disconnect` (lines 29-33): `active_connections.discard(ws)`.
`set.discard` removes the element when present and is a no-op otherwise; it
never raises.  Totality of this Lean function is the embedding of
"never raises". -/
def disconnect (s : List Nat) (ws : Nat) : List Nat :=
  s.filter (fun x => x ≠ ws)

/-- `WebSocketManager.connect` (lines 22-27), registration part:
`active_connections.add(ws)` — set insertion, a no-op when already present. -/
def connect (s : List Nat) (ws : Nat) : List Nat :=
  if ws ∈ s then s else s ++ [ws]

/-- `WebSocketManager.get_connection_count` (lines 156-158):
`len(self.active_connections)`. -/
def get_connection_count (s : List Nat) : Nat :=
  s.length

/-- Outcome of a single-target send: the registry state afterwards and
whether the payload was delivered.  The Python methods return `None`; the
`delivered` flag records the observable transport outcome (no error value is
surfaced to the caller either way). -/
structure SendOutcome where
  state : List Nat
  delivered : Bool
deriving Repr, DecidableEq

/-- `WebSocketManager.send_personal_message` (lines 35-41): try
`send_text`; on an exception, log and `disconnect` the handle.  Nothing is
returned to the caller. -/
def send_personal_message (sendOk : Nat → Bool) (s : List Nat) (ws : Nat) : SendOutcome :=
  if sendOk ws then ⟨s, true⟩
  else ⟨disconnect s ws, false⟩

/-- `WebSocketManager._send_response` (lines 139-145): `json.dumps` the
response and try `send_text`; on an exception, only `logger.error` runs — the
handle is NOT disconnected and no error is surfaced. -/
def send_response (sendOk : Nat → Bool) (s : List Nat) (ws : Nat) : SendOutcome :=
  if sendOk ws then ⟨s, true⟩
  else ⟨s, false⟩

/-! ## Message classifier (`handle_message` lines 70-88, inline branching) -/

/-- The three-way classification of a raw inbound payload, as the inline
`json.loads` branching of `handle_message` produces it: `Structured` carries
the `type` field (default the string `"unknown"`), the
`content`-else-`message`-else-`""` value, and the full mapping. -/
inductive ClassifiedMessage where
  | Structured (kind : JValue) (content : JValue) (raw : List (String × JValue))
  | OpaqueJSON (value : JValue)
  | PlainText (value : String)
deriving Repr

/-- The classifier, read off `WebSocketManager.handle_message` lines 70-88
(`src/main.py` lines 48-60 are the identical branching):
`json.loads` raising (`parse _ = none`) selects the plain-text branch;
a top-level `dict` selects the structured branch with
`message_type = data.get('type', 'unknown')` and
`content = data.get('content', data.get('message', ''))`;
every other parsed value selects the opaque-JSON branch. -/
def classify (parse : String → Option JValue) (message : String) : ClassifiedMessage :=
  match parse message with
  | none => .PlainText message
  | some (.obj fields) =>
      .Structured (dictGet fields "type" (.str "unknown"))
        (dictGet fields "content" (dictGet fields "message" (.str "")))
        fields
  | some v => .OpaqueJSON v

/-- Spec-side rendering of the classifier's `content` fallback chain, for the
refinement comparison with `classify` (C2): "the `content` field if present,
else the `message` field, else the empty string". -/
def specContent (fields : List (String × JValue)) : JValue :=
  if dictHas fields "content" then dictGet fields "content" (.str "")
  else if dictHas fields "message" then dictGet fields "message" (.str "")
  else .str ""

/-- Spec-side rendering of the classifier's `kind`: "the `type` field or
`"unknown"` when absent". -/
def specKind (fields : List (String × JValue)) : JValue :=
  if dictHas fields "type" then dictGet fields "type" (.str "") else .str "unknown"

/-- The classifier as the spec's decision table words it: parse failure gives
`PlainText(raw)`, a top-level mapping gives `Structured` with `specKind` and
`specContent`, any other parse gives `OpaqueJSON(value)`.  Written from the
spec's words, to be compared with `classify` (written from the source). -/
def classifySpec (parse : String → Option JValue) (message : String) :
    ClassifiedMessage :=
  match parse message with
  | none => .PlainText message
  | some (.obj fields) => .Structured (specKind fields) (specContent fields) fields
  | some v => .OpaqueJSON v

/-! ## Dispatcher (`websocket_manager.py` lines 94-154) -/

/-- `WebSocketManager._handle_structured_message` (lines 94-117): the
response object built for a structured message, keyed on
`data.get('type', 'unknown')`. -/
def handleStructuredMessage (now : String) (data : List (String × JValue)) : Response :=
  let message_type := dictGet data "type" (.str "unknown")
  if isStrEq message_type "ping" then
    [("type", .s "pong"), ("timestamp", .s now)]
  else if isStrEq message_type "echo" then
    [("type", .s "echo_response"), ("original_message", .j (.obj data)),
     ("timestamp", .s now)]
  else
    [("status", .s "received"), ("message_type", .j message_type),
     ("timestamp", .s now), ("message", .s "Structured message received successfully")]

/-- `WebSocketManager._handle_json_data` (lines 119-126). -/
def handleJsonData (now : String) (data : JValue) : Response :=
  [("status", .s "received"), ("data_type", .s (typeName data)),
   ("timestamp", .s now), ("message", .s "JSON data received successfully")]

/-- `WebSocketManager._handle_text_message` (lines 128-137):
`message_length` is `len(message)`. -/
def handleTextMessage (now : String) (message : String) : Response :=
  [("status", .s "received"), ("message_length", .n message.length),
   ("timestamp", .s now), ("message", .s "Text message received successfully")]

/-- The error response object built by `WebSocketManager._send_error_response`
(lines 147-154). -/
def sendErrorResponse (now : String) (errMsg : String) : Response :=
  [("status", .s "error"), ("timestamp", .s now),
   ("message", .s ("Error processing message: " ++ errMsg))]

/-- The response `WebSocketManager.handle_message` (lines 61-92) selects on
its fault-free path, by classification of the payload. -/
def handleMessageResult (parse : String → Option JValue) (now : String)
    (message : String) : Response :=
  match classify parse message with
  | .Structured _ _ raw => handleStructuredMessage now raw
  | .OpaqueJSON v => handleJsonData now v
  | .PlainText m => handleTextMessage now m

/-- `WebSocketManager.handle_message` (lines 61-92) with its outer
`try/except Exception`.  `fault = some e` models classification or response
construction raising an unexpected exception whose `str` is `e`: the
`except` clause converts it to `_send_error_response(websocket, str(e))`.
Either way the chosen response goes out through `_send_response`
(`send_response` here), which never mutates the registry; the pair returned
is (registry state afterwards, response object sent). -/
def handle_message (parse : String → Option JValue) (fault : Option String)
    (now : String) (sendOk : Nat → Bool) (s : List Nat) (ws : Nat)
    (message : String) : List Nat × Response :=
  match fault with
  | none =>
      let resp := handleMessageResult parse now message
      ((send_response sendOk s ws).state, resp)
  | some e =>
      let resp := sendErrorResponse now e
      ((send_response sendOk s ws).state, resp)

/-! ## Broadcast (`WebSocketManager.broadcast`, lines 43-59) -/

/-- Observable outcome of one `broadcast` call: the registry state after the
cleanup loop, the handles whose `send_text` succeeded (`sent`) and failed
(`disconnected`, the code's list of that name) in iteration order, and
whether the `"No active connections for broadcast"` warning was logged
(the non-error early return).  The Python method returns `None`; these fields
are its observable effects. -/
structure BroadcastResult where
  state : List Nat
  sent : List Nat
  disconnected : List Nat
  warnedNoActive : Bool
deriving Repr, DecidableEq

/-- Number of send attempts a broadcast made (`attempted` of the spec's
`BroadcastReport`): every handle of the snapshot is attempted exactly once,
succeeding or failing. -/
def BroadcastResult.attempted (r : BroadcastResult) : Nat :=
  r.sent.length + r.disconnected.length

/-- `WebSocketManager.broadcast` (lines 43-59): early return with a warning
when the set is empty; otherwise iterate a copy (`active_connections.copy()`)
of the membership, try each send, append failures to `disconnected`, and only
after the full pass `disconnect` each failed handle. -/
def broadcast (sendOk : Nat → Bool) (s : List Nat) : BroadcastResult :=
  if s.isEmpty then
    { state := s, sent := [], disconnected := [], warnedNoActive := true }
  else
    let snapshot := s
    let pass := snapshot.foldl
      (fun acc c => if sendOk c then (acc.1 ++ [c], acc.2) else (acc.1, acc.2 ++ [c]))
      ([], [])
    { state := pass.2.foldl disconnect s
      sent := pass.1
      disconnected := pass.2
      warnedNoActive := false }

/-! ## Broadcast pass under concurrent registry mutation

The `for connection in self.active_connections.copy():` loop awaits each
`send_text`, so other event-loop tasks may `connect`/`disconnect` handles
between iterations.  `BroadcastPass` is the small-step view of one pass:
`pending` is the unconsumed tail of the snapshot taken at entry, `attempts`
the handles already given their send attempt, `failedAcc` the code's
`disconnected` accumulator. -/

/-- State of an in-progress broadcast pass over a snapshot. -/
structure BroadcastPass where
  registry : List Nat
  pending : List Nat
  attempts : List Nat
  failedAcc : List Nat
deriving Repr, DecidableEq

/-- One scheduler event during a broadcast pass: a concurrent task
registering a handle, a concurrent task removing one, or the broadcast loop
performing its next send attempt. -/
inductive BAction where
  | envConnect (c : Nat)
  | envDisconnect (c : Nat)
  | sendStep
deriving Repr, DecidableEq

/-- Effect of one event: concurrent `connect`/`disconnect` mutate only the
registry (the snapshot copy is untouched); a `sendStep` consumes the head of
the snapshot, attempting its send and recording a failure, exactly as one
iteration of the `broadcast` loop body (lines 50-55). -/
def bstep (sendOk : Nat → Bool) (st : BroadcastPass) : BAction → BroadcastPass
  | .envConnect c => { st with registry := connect st.registry c }
  | .envDisconnect c => { st with registry := disconnect st.registry c }
  | .sendStep =>
    match st.pending with
    | [] => st
    | c :: rest =>
      if sendOk c then
        { st with pending := rest, attempts := st.attempts ++ [c] }
      else
        { st with
            pending := rest
            attempts := st.attempts ++ [c]
            failedAcc := st.failedAcc ++ [c] }

/-- Run a sequence of interleaved events from a pass state. -/
def brun (sendOk : Nat → Bool) (st : BroadcastPass) (acts : List BAction) :
    BroadcastPass :=
  acts.foldl (bstep sendOk) st

/-- The pass state at entry to the loop: the snapshot is the registry
membership `r` copied before the first send. -/
def bstart (r : List Nat) : BroadcastPass :=
  { registry := r, pending := r, attempts := [], failedAcc := [] }

/-- Number of loop iterations (send attempts) a schedule contains. -/
def numSendSteps : List BAction → Nat
  | [] => 0
  | .sendStep :: rest => numSendSteps rest + 1
  | .envConnect _ :: rest => numSendSteps rest
  | .envDisconnect _ :: rest => numSendSteps rest

/-! ## Standalone server (`src/main.py`) -/

/-- `WebSocketServer.process_message` (`src/main.py` lines 41-76), fault-free
path: the payload is classified exactly as in `handle_message` (lines 48-60,
the classification only feeds `logger.info`), and then one fixed
acknowledgment object is built and sent regardless of the classification
(lines 63-68). -/
def process_message (parse : String → Option JValue) (timestamp : String)
    (message : String) : Response :=
  let _classification := classify parse message
  [("status", .s "received"), ("timestamp", .s timestamp),
   ("message", .s "Message received successfully")]

/-! ## Helper lemmas -/

/-- `data.get('type', 'unknown')` agrees with the spec's "the `type` field or
`"unknown"` when absent". -/
theorem dictGet_type_eq_specKind (fields : List (String × JValue)) :
    dictGet fields "type" (.str "unknown") = specKind fields := by
  unfold specKind dictHas dictGet
  cases h : fields.find? (fun p => p.1 == "type") <;> simp [h]

/-- `data.get('content', data.get('message', ''))` agrees with the spec's
fallback chain "`content` if present, else `message`, else empty". -/
theorem dictGet_content_eq_specContent (fields : List (String × JValue)) :
    dictGet fields "content" (dictGet fields "message" (.str "")) =
      specContent fields := by
  unfold specContent dictHas dictGet
  cases h1 : fields.find? (fun p => p.1 == "content") <;>
    cases h2 : fields.find? (fun p => p.1 == "message") <;> simp [h1, h2]

/-- `isStrEq` is equality with the string value. -/
theorem isStrEq_iff (v : JValue) (t : String) : isStrEq v t = true ↔ v = .str t := by
  cases v <;> simp [isStrEq]

/-- A handle is never a member of the registry it was just filtered out of. -/
theorem not_mem_disconnect (s : List Nat) (ws : Nat) : ws ∉ disconnect s ws := by
  simp [disconnect, List.mem_filter]

/-! ## Claims -/

/-- C2: For every raw text payload, classification is a three-way split —
parse failure yields `PlainText(raw)`; a top-level mapping yields
`Structured` with kind the `type` field (default `"unknown"`) and content by
the `content`-else-`message`-else-empty fallback chain; any other parse
yields `OpaqueJSON(value)`.  `classify` is the source's branching
(`handle_message` lines 70-88), `classifySpec` is the spec's decision table;
they coincide on every parse outcome of every payload. -/
theorem classifier_three_way_split (parse : String → Option JValue)
    (message : String) :
    classify parse message = classifySpec parse message := by
  unfold classify classifySpec
  cases h : parse message with
  | none => rfl
  | some v =>
    cases v with
    | obj fields =>
        simp [dictGet_type_eq_specKind, dictGet_content_eq_specContent]
    | arr l => rfl
    | str u => rfl
    | num n => rfl
    | bool b => rfl
    | null => rfl

/-- C7: `broadcast` on an empty registry attempts zero sends, delivers and
removes nothing, and signals the "no active connections" warning as a
non-error early return (totality of `broadcast` embeds "does not raise"). -/
theorem broadcast_empty_registry (sendOk : Nat → Bool) :
    broadcast sendOk [] =
      { state := [], sent := [], disconnected := [], warnedNoActive := true } ∧
    (broadcast sendOk []).attempted = 0 := by
  exact ⟨rfl, rfl⟩

/-- C8: removal is idempotent and total — `disconnect` (= `set.discard`) is a
total function (it never raises, on registered and unregistered handles
alike), removing twice equals removing once, and removing an absent handle
leaves the membership unchanged. -/
theorem remove_idempotent_total (s : List Nat) (w : Nat) :
    disconnect (disconnect s w) w = disconnect s w ∧
    (w ∉ s → disconnect s w = s) := by
  constructor
  · induction s with
    | nil => rfl
    | cons a t ih =>
      by_cases h : a = w <;> simp [disconnect, List.filter_cons, h] at ih ⊢
  · intro hw
    induction s with
    | nil => rfl
    | cons a t ih =>
      simp only [List.mem_cons, not_or] at hw
      have ht := ih hw.2
      have ha : a ≠ w := fun h => hw.1 h.symm
      simp [disconnect, List.filter_cons, ha] at ht ⊢
      simpa [disconnect] using ht

/-- C8 witness: removal at a concrete registry — removing `1` twice from
`[5, 7]` equals removing it once, and removing the absent `1` leaves
`[5, 7]` unchanged. -/
theorem remove_idempotent_total_witness :
    disconnect (disconnect [5, 7] 1) 1 = disconnect [5, 7] 1 ∧
    disconnect [5, 7] 1 = [5, 7] :=
  ⟨(remove_idempotent_total [5, 7] 1).1,
   (remove_idempotent_total [5, 7] 1).2 (by decide)⟩

/-- C10: the standalone server's `process_message` (`src/main.py`) replies
with the one fixed acknowledgment object for every fault-free inbound
message, whatever its classification (including `type: "ping"` and
`type: "echo"` payloads), and its reply never carries a `type`
(`pong`/`echo_response`), `message_length`, or `data_type` field. -/
theorem process_message_constant_ack (parse : String → Option JValue)
    (timestamp message : String) :
    process_message parse timestamp message =
      [("status", .s "received"), ("timestamp", .s timestamp),
       ("message", .s "Message received successfully")] ∧
    rlookup (process_message parse timestamp message) "status" =
      some (.s "received") ∧
    rlookup (process_message parse timestamp message) "type" = none ∧
    rlookup (process_message parse timestamp message) "message_length" = none ∧
    rlookup (process_message parse timestamp message) "data_type" = none := by
  refine ⟨rfl, ?_, ?_, ?_, ?_⟩ <;> simp [process_message, rlookup, List.find?]

/-- C3: the structured dispatcher's reply is determined by the kind
(`data.get('type', 'unknown')`): kind `"ping"` yields the `pong` response
with a timestamp; kind `"echo"` yields the `echo_response` whose
`original_message` is the full input object; any other kind yields the
generic acknowledgment with status `"received"` and `message_type` equal to
that kind. -/
theorem structured_dispatch (now : String) (fields : List (String × JValue)) :
    (dictGet fields "type" (.str "unknown") = .str "ping" →
      handleStructuredMessage now fields =
        [("type", .s "pong"), ("timestamp", .s now)]) ∧
    (dictGet fields "type" (.str "unknown") = .str "echo" →
      handleStructuredMessage now fields =
        [("type", .s "echo_response"), ("original_message", .j (.obj fields)),
         ("timestamp", .s now)]) ∧
    (dictGet fields "type" (.str "unknown") ≠ .str "ping" →
      dictGet fields "type" (.str "unknown") ≠ .str "echo" →
      handleStructuredMessage now fields =
        [("status", .s "received"),
         ("message_type", .j (dictGet fields "type" (.str "unknown"))),
         ("timestamp", .s now),
         ("message", .s "Structured message received successfully")]) := by
  refine ⟨fun h => ?_, fun h => ?_, fun h1 h2 => ?_⟩
  · simp [handleStructuredMessage, h, isStrEq]
  · simp [handleStructuredMessage, h, isStrEq]
  · have hp : isStrEq (dictGet fields "type" (.str "unknown")) "ping" = false := by
      cases hk : isStrEq (dictGet fields "type" (.str "unknown")) "ping"
      · rfl
      · exact absurd ((isStrEq_iff _ _).mp hk) h1
    have hq : isStrEq (dictGet fields "type" (.str "unknown")) "echo" = false := by
      cases hk : isStrEq (dictGet fields "type" (.str "unknown")) "echo"
      · rfl
      · exact absurd ((isStrEq_iff _ _).mp hk) h2
    simp [handleStructuredMessage, hp, hq]

/-- C3 witness: the three dispatch branches at concrete inputs — a
`{"type":"ping"}` object, a `{"type":"echo"}` object, and an empty object
(kind defaults to `"unknown"`, neither ping nor echo). -/
theorem structured_dispatch_witness :
    handleStructuredMessage "t" [("type", JValue.str "ping")] =
      [("type", .s "pong"), ("timestamp", .s "t")] ∧
    handleStructuredMessage "t" [("type", JValue.str "echo")] =
      [("type", .s "echo_response"),
       ("original_message", .j (.obj [("type", JValue.str "echo")])),
       ("timestamp", .s "t")] ∧
    handleStructuredMessage "t" [] =
      [("status", .s "received"), ("message_type", .j (JValue.str "unknown")),
       ("timestamp", .s "t"),
       ("message", .s "Structured message received successfully")] := by
  refine ⟨(structured_dispatch "t" [("type", JValue.str "ping")]).1 rfl,
          (structured_dispatch "t" [("type", JValue.str "echo")]).2.1 rfl,
          ?_⟩
  have h := (structured_dispatch "t" []).2.2
  have h1 : dictGet [] "type" (.str "unknown") ≠ JValue.str "ping" := by
    intro hc
    simp [dictGet] at hc
  have h2 : dictGet [] "type" (.str "unknown") ≠ JValue.str "echo" := by
    intro hc
    simp [dictGet] at hc
  simpa [dictGet] using h h1 h2

/-- C4: a payload whose structured parse fails is classified `PlainText(P)`
and the dispatcher's reply has status `"received"` and `message_length`
equal to the length of `P`. -/
theorem plaintext_dispatch (parse : String → Option JValue) (now message : String)
    (h : parse message = none) :
    classify parse message = .PlainText message ∧
    rlookup (handleMessageResult parse now message) "status" =
      some (.s "received") ∧
    rlookup (handleMessageResult parse now message) "message_length" =
      some (.n message.length) := by
  have hc : classify parse message = .PlainText message := by
    unfold classify
    rw [h]
  refine ⟨hc, ?_, ?_⟩ <;>
    simp [handleMessageResult, hc, handleTextMessage, rlookup, List.find?]

/-- C4 witness: the always-failing parser on `"hello"` — classified as plain
text, answered with status `"received"` and `message_length = 5`. -/
theorem plaintext_dispatch_witness :
    classify (fun _ => none) "hello" = .PlainText "hello" ∧
    rlookup (handleMessageResult (fun _ => none) "t" "hello") "status" =
      some (.s "received") ∧
    rlookup (handleMessageResult (fun _ => none) "t" "hello") "message_length" =
      some (.n 5) := by
  have h := plaintext_dispatch (fun _ => none) "t" "hello" rfl
  simpa using h

/-- C6: a fault raised during classification or response construction
(`fault = some e`) never propagates out of `handle_message`: the outer
`except Exception` converts it to the error response (status `"error"` with
the fault description) sent to the originating connection through
`_send_response`, and the registry membership is unchanged by this path
whatever the transport send oracle does (only `send_personal_message`
failures remove handles). -/
theorem dispatch_fault_converted (parse : String → Option JValue) (now : String)
    (sendOk : Nat → Bool) (s : List Nat) (ws : Nat) (message e : String) :
    handle_message parse (some e) now sendOk s ws message =
      (s, sendErrorResponse now e) ∧
    rlookup (sendErrorResponse now e) "status" = some (.s "error") := by
  constructor
  · unfold handle_message send_response
    cases h : sendOk ws <;> simp [h]
  · simp [sendErrorResponse, rlookup, List.find?]

/-- C5 counterexample: the claim "for every send of a dispatcher reply whose
transport send fails, the registry removes that handle" is false on the
code — `_send_response` (`send_response`) catches the failure, only logs it,
and leaves the membership unchanged: with registry `[1, 2]` and every send
failing, handle `1` is still present afterwards (and no error is returned). -/
theorem send_response_keeps_failed_handle :
    (send_response (fun _ => false) [1, 2] 1).state = [1, 2] ∧
    1 ∈ (send_response (fun _ => false) [1, 2] 1).state ∧
    (send_response (fun _ => false) [1, 2] 1).delivered = false := by
  refine ⟨rfl, ?_, rfl⟩
  simp [send_response]

/-- C5 amended: on a transport-level send failure, `send_personal_message`
does remove the handle from the registry (self-healing) — but it surfaces no
error value to its caller (the Python method returns `None`); and sends of
dispatcher replies go through `_send_response`, which on failure neither
removes the handle nor signals the error (it only logs). -/
theorem send_failure_selfheal_amended (sendOk : Nat → Bool) (s : List Nat)
    (ws : Nat) (h : sendOk ws = false) :
    (send_personal_message sendOk s ws).state = disconnect s ws ∧
    ws ∉ (send_personal_message sendOk s ws).state ∧
    (send_personal_message sendOk s ws).delivered = false ∧
    (send_response sendOk s ws).state = s ∧
    (send_response sendOk s ws).delivered = false := by
  refine ⟨?_, ?_, ?_, ?_, ?_⟩ <;>
    simp [send_personal_message, send_response, h, not_mem_disconnect]

/-- C5 amended witness: with registry `[1, 2]`, every send failing, and
target handle `1` — `send_personal_message` removes it (state `[2]`),
`_send_response` keeps the registry at `[1, 2]`; neither reports an error. -/
theorem send_failure_selfheal_amended_witness :
    (send_personal_message (fun _ => false) [1, 2] 1).state = disconnect [1, 2] 1 ∧
    1 ∉ (send_personal_message (fun _ => false) [1, 2] 1).state ∧
    (send_personal_message (fun _ => false) [1, 2] 1).delivered = false ∧
    (send_response (fun _ => false) [1, 2] 1).state = [1, 2] ∧
    (send_response (fun _ => false) [1, 2] 1).delivered = false :=
  send_failure_selfheal_amended (fun _ => false) [1, 2] 1 rfl

/-- C1: broadcasting over registry `{a, b, c}` where the send to `b` fails
and those to `a` and `c` succeed still delivers to `a` and to `c` (the `b`
failure does not abort the pass — `c`, iterated after `b`, is still sent),
records exactly `b` as failed, removes exactly the failed handle after the
full pass, and leaves a registry with `count = 2`, `b` absent, `a` and `c`
present. -/
theorem broadcast_partial_failure (a b c : Nat) (sendOk : Nat → Bool)
    (hab : a ≠ b) (hcb : c ≠ b)
    (ha : sendOk a = true) (hb : sendOk b = false) (hc : sendOk c = true) :
    (broadcast sendOk [a, b, c]).sent = [a, c] ∧
    (broadcast sendOk [a, b, c]).disconnected = [b] ∧
    (broadcast sendOk [a, b, c]).state = [a, c] ∧
    get_connection_count (broadcast sendOk [a, b, c]).state = 2 ∧
    b ∉ (broadcast sendOk [a, b, c]).state ∧
    a ∈ (broadcast sendOk [a, b, c]).state ∧
    c ∈ (broadcast sendOk [a, b, c]).state := by
  have hres : broadcast sendOk [a, b, c] =
      { state := [a, c], sent := [a, c], disconnected := [b],
        warnedNoActive := false } := by
    simp [broadcast, List.foldl, ha, hb, hc, disconnect, List.filter_cons, hab, hcb]
  refine ⟨?_, ?_, ?_, ?_, ?_, ?_, ?_⟩ <;>
    simp [hres, get_connection_count, Ne.symm hab, Ne.symm hcb]

/-- C1 witness: registry `[0, 1, 2]` with sends failing exactly at `1` —
payload delivered to `0` and `2`, failed list `[1]`, final registry `[0, 2]`
of size 2. -/
theorem broadcast_partial_failure_witness :
    (broadcast (fun n => decide (n ≠ 1)) [0, 1, 2]).sent = [0, 2] ∧
    (broadcast (fun n => decide (n ≠ 1)) [0, 1, 2]).disconnected = [1] ∧
    (broadcast (fun n => decide (n ≠ 1)) [0, 1, 2]).state = [0, 2] ∧
    get_connection_count (broadcast (fun n => decide (n ≠ 1)) [0, 1, 2]).state = 2 ∧
    1 ∉ (broadcast (fun n => decide (n ≠ 1)) [0, 1, 2]).state ∧
    0 ∈ (broadcast (fun n => decide (n ≠ 1)) [0, 1, 2]).state ∧
    2 ∈ (broadcast (fun n => decide (n ≠ 1)) [0, 1, 2]).state :=
  broadcast_partial_failure 0 1 2 (fun n => decide (n ≠ 1))
    (by decide) (by decide) (by decide) (by decide) (by decide)

/-- Invariant of the broadcast pass: whatever concurrent `connect` /
`disconnect` events interleave with the loop, once the schedule contains at
least as many loop iterations as the snapshot has unconsumed handles, the
attempt list extends by exactly the pending snapshot tail, in order, and the
snapshot is fully consumed. -/
theorem brun_attempts_of_enough_sends (sendOk : Nat → Bool)
    (acts : List BAction) :
    ∀ st : BroadcastPass, st.pending.length ≤ numSendSteps acts →
      (brun sendOk st acts).attempts = st.attempts ++ st.pending ∧
      (brun sendOk st acts).pending = [] := by
  induction acts with
  | nil =>
    intro st h
    have hnil : st.pending = [] := by
      simpa [numSendSteps] using h
    simp [brun, hnil]
  | cons a rest ih =>
    intro st h
    cases a with
    | envConnect c =>
      have hr := ih { st with registry := connect st.registry c }
        (by simpa [numSendSteps] using h)
      simpa [brun, bstep] using hr
    | envDisconnect c =>
      have hr := ih { st with registry := disconnect st.registry c }
        (by simpa [numSendSteps] using h)
      simpa [brun, bstep] using hr
    | sendStep =>
      cases hp : st.pending with
      | nil =>
        have hr := ih st (by simp [hp])
        simpa [brun, bstep, hp] using hr
      | cons x xs =>
        have hlen : xs.length ≤ numSendSteps rest := by
          have := h
          simp [hp, numSendSteps] at this
          omega
        cases hok : sendOk x with
        | true =>
          have hr := ih { st with pending := xs, attempts := st.attempts ++ [x] } hlen
          simpa [brun, bstep, hp, hok, List.append_assoc] using hr
        | false =>
          have hr := ih
            { st with
                pending := xs
                attempts := st.attempts ++ [x]
                failedAcc := st.failedAcc ++ [x] } hlen
          simpa [brun, bstep, hp, hok, List.append_assoc] using hr

/-- C9: the broadcast loop iterates the snapshot copied before the first
send: for every schedule interleaving arbitrary concurrent `connect` /
`disconnect` events with enough loop iterations, the handles attempted are
exactly the snapshot `r`, each once and in snapshot order — no handle is
skipped or attempted twice however the registry is mutated during the pass
(including removals of snapshotted handles themselves). -/
theorem broadcast_snapshot_stable (sendOk : Nat → Bool) (r : List Nat)
    (acts : List BAction) (h : r.length ≤ numSendSteps acts) :
    (brun sendOk (bstart r) acts).attempts = r ∧
    (brun sendOk (bstart r) acts).pending = [] := by
  have hr := brun_attempts_of_enough_sends sendOk acts (bstart r)
    (by simpa [bstart] using h)
  simpa [bstart] using hr

/-- C9 witness: snapshot `[1, 2]` with a schedule that disconnects `1`
(a snapshotted handle) before its send, connects a new handle `9`
mid-pass, and runs two loop iterations — the attempts are still exactly
`[1, 2]`. -/
theorem broadcast_snapshot_stable_witness :
    (brun (fun _ => true) (bstart [1, 2])
        [.envDisconnect 1, .sendStep, .envConnect 9, .sendStep]).attempts =
      [1, 2] ∧
    (brun (fun _ => true) (bstart [1, 2])
        [.envDisconnect 1, .sendStep, .envConnect 9, .sendStep]).pending = [] :=
  broadcast_snapshot_stable (fun _ => true) [1, 2]
    [.envDisconnect 1, .sendStep, .envConnect 9, .sendStep] (by decide)
